import Mathlib

/-!
Shallow embedding of the CreoleCentric api-examples repository's job-lifecycle
code:

* `src/examples/webhook_server.js` — the Express webhook receiver: the
  `POST /webhook` handler, the per-event-type handlers (`handleQueued`, ...,
  `handleDelivered`, `handleFailed`), the `downloadAudio` helper, and the
  `GET /events/:jobId` and `GET /health` endpoints.  The mutable
  `webhookEvents` array becomes an explicit list threaded through a step
  function.
* `src/nodejs/creolecentric-api.js` — the client's `waitForJob` polling loop
  and its `downloadAudio` helper.
* `src/README.md` — the `tts_job_with_polling.sh` polling loop
  (`MAX_ATTEMPTS=30`, `POLL_INTERVAL=2`, completed/failed/cancelled branches).

JavaScript conventions used throughout the embedding: an absent (`undefined`)
JSON field is `Option.none`; JS string truthiness (`undefined` and the empty
string are falsy) is the `truthy` predicate; `a || b` on strings is `jsOr`.
-/

namespace CreoleCentric

/-- JS `o || d` for a possibly-undefined string `o`: `undefined` and `""` are
falsy, so they yield the default `d`. -/
def jsOr (o : Option String) (d : String) : String :=
  match o with
  | none => d
  | some s => if s == "" then d else s

/-- JS truthiness of a possibly-undefined string: `undefined` and `""` are
falsy, every other string is truthy. -/
def truthy (o : Option String) : Bool :=
  match o with
  | none => false
  | some s => !(s == "")

/-- The webhook payload body consumed by `app.post` in
`src/examples/webhook_server.js` (and described in the README): every field
the handlers read, each possibly absent.  Numeric fields are kept as strings
since the handlers only log them. -/
structure WebhookData where
  event : Option String
  job_id : Option String
  status : Option String
  queue_position : Option String
  audio_file_url : Option String
  s3_url : Option String
  error_message : Option String
  duration_seconds : Option String
  credits_used : Option String
deriving Repr, DecidableEq

/-- A `WebhookData` with every field absent (the JS body `{}`). -/
def emptyWebhookData : WebhookData :=
  ⟨none, none, none, none, none, none, none, none, none⟩

/-- One entry of the in-memory `webhookEvents` array: the original body's
fields spread together with a `received_at` timestamp
(`webhookEvents.push({...data, received_at: ...})`). -/
structure StoredEvent where
  data : WebhookData
  received_at : Nat
deriving Repr, DecidableEq

/-- One invocation of `downloadAudio(jobId, audioUrl)` in
`src/examples/webhook_server.js`: `handleDelivered` passes `data.job_id` and
`data.audio_file_url` through unchanged (both may be `undefined` in JS; the
url is only passed when truthy). -/
structure Download where
  job_id : Option String
  url : Option String
deriving Repr, DecidableEq

/-- Which branch of the `switch (eventType)` in `app.post` ran. -/
inductive HandlerTag where
  | queued
  | started
  | synthesized
  | uploaded
  | delivered
  | failed
  | unknownEvent
deriving Repr, DecidableEq

/-- The observable effect of dispatching one event through the `switch`:
which handler ran, the `downloadAudio` invocations it triggered, and the
error message `handleFailed` logs (surfaces) if it ran. -/
structure DispatchResult where
  tag : HandlerTag
  downloads : List Download
  loggedError : Option String
deriving Repr, DecidableEq

/-- The six `case` labels of the `switch (eventType)` statement. -/
def knownEventTypes : List String :=
  ["tts_queued", "tts_started", "tts_synthesized", "tts_uploaded",
   "tts_delivered", "tts_failed"]

/-- The `switch (eventType)` dispatch of `app.post` together with the bodies
of the handlers it calls.  `eventType` is `data.event || 'unknown'`.
`handleQueued`/`handleStarted`/`handleSynthesized`/`handleUploaded` only log.
`handleDelivered` calls `downloadAudio(data.job_id, data.audio_file_url)` iff
`data.audio_file_url` is truthy.  `handleFailed` logs
`data.error_message || 'Unknown error'` and triggers no download.  The
`default` branch logs the unknown event type and does nothing else. -/
def dispatchEvent (data : WebhookData) : DispatchResult :=
  let eventType := jsOr data.event "unknown"
  if eventType == "tts_queued" then ⟨.queued, [], none⟩
  else if eventType == "tts_started" then ⟨.started, [], none⟩
  else if eventType == "tts_synthesized" then ⟨.synthesized, [], none⟩
  else if eventType == "tts_uploaded" then ⟨.uploaded, [], none⟩
  else if eventType == "tts_delivered" then
    ⟨.delivered,
     if truthy data.audio_file_url then [⟨data.job_id, data.audio_file_url⟩]
     else [],
     none⟩
  else if eventType == "tts_failed" then
    ⟨.failed, [], some (jsOr data.error_message "Unknown error")⟩
  else ⟨.unknownEvent, [], none⟩

/-- The response of one `POST /webhook` request: the HTTP status code sent,
the `webhookEvents` array after the request, and the dispatch effect
(`none` when the request was rejected before dispatch). -/
structure PostResponse where
  httpStatus : Nat
  events : List StoredEvent
  dispatched : Option DispatchResult
deriving Repr, DecidableEq

/-- The `app.post` handler of `src/examples/webhook_server.js`.  A falsy body
(`!data`) is answered with `400` and nothing else happens.  Otherwise the
event is pushed onto `webhookEvents` with a `received_at` timestamp, the
`switch` dispatches it, and the handler answers `200` (`res.json` with the
success object) regardless of which branch ran. -/
def postWebhook (events : List StoredEvent) (body : Option WebhookData)
    (now : Nat) : PostResponse :=
  match body with
  | none => ⟨400, events, none⟩
  | some data => ⟨200, events ++ [⟨data, now⟩], some (dispatchEvent data)⟩

/-- The server's accumulated observable state: the `webhookEvents` array and
every `downloadAudio` invocation made so far, in order. -/
structure ServerState where
  events : List StoredEvent
  downloads : List Download
deriving Repr, DecidableEq

/-- One incoming `POST /webhook` request: its parsed body (`none` for a falsy
body) and the arrival timestamp used for `received_at`. -/
def Request : Type := Option WebhookData × Nat

/-- Process one request against the current server state. -/
def serverStep (st : ServerState) (req : Request) : ServerState :=
  let r := postWebhook st.events req.1 req.2
  { events := r.events
    downloads :=
      st.downloads ++ (match r.dispatched with
        | some d => d.downloads
        | none => []) }

/-- Process a sequence of `POST /webhook` requests from the server's initial
state (empty `webhookEvents`, no downloads). -/
def runServer (reqs : List Request) : ServerState :=
  reqs.foldl serverStep ⟨[], []⟩

/-- The `GET /events/:jobId` endpoint:
`webhookEvents.filter(e => e.job_id === jobId)`.  In JS an absent `job_id`
(`undefined`) is never `===` to the string path parameter. -/
def getEventsForJob (events : List StoredEvent) (jobId : String) :
    List StoredEvent :=
  events.filter (fun e => e.data.job_id == some jobId)

/-- The `events_received` field of the `GET /health` endpoint:
`webhookEvents.length`. -/
def healthEventsReceived (st : ServerState) : Nat :=
  st.events.length

/-- The `webhookEvents` entries contributed by one request: one entry for an
accepted body, none for a rejected one. -/
def reqStored (req : Request) : List StoredEvent :=
  match req.1 with
  | some data => [⟨data, req.2⟩]
  | none => []

/-- The `downloadAudio` invocations contributed by one request. -/
def reqDownloads (req : Request) : List Download :=
  match req.1 with
  | some data => (dispatchEvent data).downloads
  | none => []

/-! ### `waitForJob` from `src/nodejs/creolecentric-api.js`

```js
async waitForJob(jobId, timeout = 300, pollInterval = 2) {
    const startTime = Date.now();
    ...
    while (Date.now() - startTime < timeoutMs) {
        const status = await this.getJobStatus(jobId);
        if (['completed', 'failed', 'cancelled'].includes(status.status)) {
            return status;
        }
        await new Promise(resolve => setTimeout(resolve, pollIntervalMs));
    }
    throw new Error(...);
}
```

The embedding idealizes each status query as instantaneous, so the elapsed
time before the `k`-th attempt (`k` counted from 0) is `k * pollIntervalMs`:
attempt `k` happens iff `k * pollIntervalMs < timeoutMs` and no earlier
attempt observed a terminal status.  `throw` becomes `Option.none`.  The JS
loop with `pollInterval = 0` would busy-wait; the embedding's attempt count
is defined only for a positive interval and returns 0 attempts otherwise. -/

/-- One response of `getJobStatus`: the `status` field may be absent. -/
structure JobStatus where
  status : Option String
deriving Repr, DecidableEq

/-- The terminal status strings tested by `waitForJob`:
`['completed', 'failed', 'cancelled']`. -/
def terminalStatuses : List String :=
  ["completed", "failed", "cancelled"]

/-- `['completed','failed','cancelled'].includes(status.status)`; in JS,
`includes(undefined)` is false for this array. -/
def isTerminal (s : Option String) : Bool :=
  match s with
  | none => false
  | some str => terminalStatuses.contains str

/-- The number of loop iterations of `waitForJob`: the number of `k` with
`k * intervalMs < timeoutMs`, i.e. `⌈timeoutMs / intervalMs⌉` for a positive
interval. -/
def numAttempts (timeoutMs intervalMs : Nat) : Nat :=
  if intervalMs = 0 then 0 else (timeoutMs + intervalMs - 1) / intervalMs

/-- The polling loop of `waitForJob`, with the remaining attempt budget made
explicit as fuel: attempt `k` queries `statuses k`; a terminal status returns
that snapshot, otherwise the loop continues; exhausted fuel is the `throw`. -/
def waitForJobGo (statuses : Nat → JobStatus) : Nat → Nat → Option JobStatus
  | 0, _ => none
  | fuel + 1, k =>
    let s := statuses k
    if isTerminal s.status then some s
    else waitForJobGo statuses fuel (k + 1)

/-- `waitForJob` over an abstract sequence of `getJobStatus` responses
(`statuses k` is the response of the `k`-th query, `k` from 0); `timeout` and
`pollInterval` are in seconds as in the JS defaults `300` and `2`. -/
def waitForJob (statuses : Nat → JobStatus) (timeout pollInterval : Nat) :
    Option JobStatus :=
  waitForJobGo statuses (numAttempts (timeout * 1000) (pollInterval * 1000)) 0

/-! ### The polling loop of `tts_job_with_polling.sh` (README)

```bash
MAX_ATTEMPTS=30
POLL_INTERVAL=2
ATTEMPT=0
while [ $ATTEMPT -lt $MAX_ATTEMPTS ]; do
    ATTEMPT=$((ATTEMPT + 1))
    ... query status ...
    if [[ "$STATUS" == "completed" ]]; then ... maybe download ...; break
    elif [[ "$STATUS" == "failed" ]]; then ... echo error ...; exit 1
    elif [[ "$STATUS" == "cancelled" ]]; then exit 1
    fi
    sleep $POLL_INTERVAL
done
if [ $ATTEMPT -eq $MAX_ATTEMPTS ]; then echo "Timeout..."; exit 1; fi
```
-/

/-- The fields of one status response that the script's loop reads, after jq
extraction: `STATUS` (jq prints `null` for a missing field), `AUDIO_URL`
(defaulted to `""` by `// ""`), `ERROR_MESSAGE` (defaulted to `""`). -/
structure ScriptStatus where
  status : String
  audio_url : String
  error_message : String
deriving Repr, DecidableEq

/-- How the loop ended: `completedT`/`failedT`/`cancelledT` on the matching
status branch, `timeoutT` when the `while` guard fell through. -/
inductive PollTag where
  | completedT
  | failedT
  | cancelledT
  | timeoutT
deriving Repr, DecidableEq

/-- The observable outcome of the script's polling loop: how many status
queries ran, total seconds slept (`sleep $POLL_INTERVAL` at the end of each
non-terminal iteration), which branch ended it, whether the completed branch
ran the `curl ... "$AUDIO_URL"` download, and the error message the failed
branch echoed (when non-empty and not jq's `null`). -/
structure PollResult where
  attempts : Nat
  slept : Nat
  tag : PollTag
  download : Bool
  errorShown : Option String
deriving Repr, DecidableEq

/-- The failed branch echoes `$ERROR_MESSAGE` only when it is non-empty and
not the literal string `null`. -/
def scriptErrorShown (msg : String) : Option String :=
  if msg == "" || msg == "null" then none else some msg

/-- The completed branch downloads iff `AUDIO_URL` is non-empty and not the
literal string `null`. -/
def scriptDownloads (url : String) : Bool :=
  !(url == "") && !(url == "null")

/-- One pass of the script's `while` loop, fuel = remaining attempts
(`MAX_ATTEMPTS - ATTEMPT`); `a` and `slept` accumulate attempts made and
seconds slept; `responses n` is the status response of attempt number `n`
(`n` from 1, matching `$ATTEMPT`). -/
def pollGo (responses : Nat → ScriptStatus) (interval : Nat) :
    Nat → Nat → Nat → PollResult
  | 0, a, slept => ⟨a, slept, .timeoutT, false, none⟩
  | fuel + 1, a, slept =>
    let r := responses (a + 1)
    if r.status == "completed" then
      ⟨a + 1, slept, .completedT, scriptDownloads r.audio_url, none⟩
    else if r.status == "failed" then
      ⟨a + 1, slept, .failedT, false, scriptErrorShown r.error_message⟩
    else if r.status == "cancelled" then
      ⟨a + 1, slept, .cancelledT, false, none⟩
    else
      pollGo responses interval fuel (a + 1) (slept + interval)

/-- The script's polling loop with configurable budget and interval. -/
def pollLoop (responses : Nat → ScriptStatus) (interval maxAttempts : Nat) :
    PollResult :=
  pollGo responses interval maxAttempts 0 0

/-- The script as shipped: `MAX_ATTEMPTS=30`, `POLL_INTERVAL=2`. -/
def pollScript (responses : Nat → ScriptStatus) : PollResult :=
  pollLoop responses 2 30

/-- After the loop the script prints the timeout message when
`ATTEMPT -eq MAX_ATTEMPTS`: true after a genuine timeout, but also when the
completed branch broke out exactly on the last attempt. -/
def reportsTimeout (maxAttempts : Nat) (r : PollResult) : Bool :=
  match r.tag with
  | .timeoutT => true
  | .completedT => r.attempts == maxAttempts
  | _ => false

/-! ### `downloadAudio`

Webhook server version (`src/examples/webhook_server.js`): one `axios` GET
inside `try`/`catch`; on success the stream is piped to
`downloads/<jobId>.mp3`; on failure the error is logged and nothing else
happens.  No loop, no retry, no backoff.

Client version (`src/nodejs/creolecentric-api.js`): one `axios.get`; the
returned promise resolves on `finish` and rejects on error.  Again a single
attempt.  The HTTP transfer is abstracted as an oracle
`http : String → Except String String` from url to error message or body. -/

/-- What the webhook server's `downloadAudio` observably did. -/
inductive FetchOutcome where
  | saved (filename : String)
  | failedLogged (message : String)
deriving Repr, DecidableEq

/-- JS template-literal rendering of a possibly-undefined string
(`undefined` prints as the string `undefined`), as in
`` `${jobId}.mp3` ``. -/
def jsTemplate (o : Option String) : String :=
  o.getD "undefined"

/-- The webhook server's `downloadAudio(jobId, audioUrl)`: the outcome and
the number of HTTP requests made (always exactly one). -/
def downloadAudio (jobId : Option String) (audioUrl : String)
    (http : String → Except String String) : FetchOutcome × Nat :=
  match http audioUrl with
  | .ok _ => (.saved (jsTemplate jobId ++ ".mp3"), 1)
  | .error m => (.failedLogged m, 1)

/-- The client's `downloadAudio(audioUrl, outputPath)`: resolves or rejects
with the transfer error, one HTTP request either way. -/
def downloadAudioClient (audioUrl : String)
    (http : String → Except String String) : Except String Unit × Nat :=
  match http audioUrl with
  | .ok _ => (.ok (), 1)
  | .error m => (.error m, 1)

/-- Whether a script status response takes one of the three terminal
branches of the loop. -/
def terminalScript (r : ScriptStatus) : Bool :=
  r.status == "completed" || r.status == "failed" || r.status == "cancelled"

/-! ### Sample payloads used by the concrete theorems -/

/-- A `tts_delivered` webhook body carrying an audio url. -/
def deliveredEvent : WebhookData :=
  { emptyWebhookData with
    event := some "tts_delivered"
    job_id := some "job-1"
    status := some "completed"
    audio_file_url := some "https://x/a.mp3" }

/-- A `tts_failed` webhook body for the same job. -/
def failedEvent : WebhookData :=
  { emptyWebhookData with
    event := some "tts_failed"
    job_id := some "job-1"
    status := some "failed"
    error_message := some "boom" }

/-- A syntactically valid body whose `event` value is not one of the six
recognized types. -/
def unrecognizedEvent : WebhookData :=
  { emptyWebhookData with
    event := some "tts_transcoded"
    job_id := some "job-9"
    status := some "processing" }

/-- An HTTP oracle on which every transfer fails. -/
def failHttp : String → Except String String :=
  fun _ => .error "Network Error"

/-! ### Helper lemmas -/

lemma serverStep_eq (st : ServerState) (req : Request) :
    serverStep st req =
      ⟨st.events ++ reqStored req, st.downloads ++ reqDownloads req⟩ := by
  obtain ⟨b, t⟩ := req
  cases b <;> simp [serverStep, postWebhook, reqStored, reqDownloads]

lemma foldl_serverStep (reqs : List Request) (st : ServerState) :
    reqs.foldl serverStep st =
      ⟨st.events ++ reqs.flatMap reqStored,
       st.downloads ++ reqs.flatMap reqDownloads⟩ := by
  induction reqs generalizing st with
  | nil => simp
  | cons r rs ih =>
    simp [List.foldl_cons, ih, serverStep_eq]

lemma runServer_eq (reqs : List Request) :
    runServer reqs = ⟨reqs.flatMap reqStored, reqs.flatMap reqDownloads⟩ := by
  simp [runServer, foldl_serverStep]

lemma length_flatMap_reqStored (reqs : List Request) :
    (reqs.flatMap reqStored).length =
      (reqs.filter (fun r => r.1.isSome)).length := by
  induction reqs with
  | nil => rfl
  | cons r rs ih =>
    obtain ⟨b, t⟩ := r
    cases b <;> simp [reqStored, List.filter_cons, ih]

lemma dispatchEvent_delivered (data : WebhookData)
    (h : jsOr data.event "unknown" = "tts_delivered") :
    dispatchEvent data =
      ⟨.delivered,
       if truthy data.audio_file_url then [⟨data.job_id, data.audio_file_url⟩]
       else [],
       none⟩ := by
  simp [dispatchEvent, h]

lemma dispatchEvent_failed (data : WebhookData)
    (h : jsOr data.event "unknown" = "tts_failed") :
    dispatchEvent data =
      ⟨.failed, [], some (jsOr data.error_message "Unknown error")⟩ := by
  simp [dispatchEvent, h]

lemma waitForJobGo_some (statuses : Nat → JobStatus) :
    ∀ fuel k s, waitForJobGo statuses fuel k = some s →
      isTerminal s.status = true := by
  intro fuel
  induction fuel with
  | zero => intro k s h; simp [waitForJobGo] at h
  | succ n ih =>
    intro k s h
    by_cases ht : isTerminal (statuses k).status = true
    · simp [waitForJobGo, ht] at h
      simpa [← h] using ht
    · simp [waitForJobGo, ht] at h
      exact ih (k + 1) s h

lemma waitForJobGo_none (statuses : Nat → JobStatus) :
    ∀ fuel k, waitForJobGo statuses fuel k = none →
      ∀ j, j < fuel → isTerminal (statuses (k + j)).status = false := by
  intro fuel
  induction fuel with
  | zero => intro k _ j hj; omega
  | succ n ih =>
    intro k h j hj
    by_cases ht : isTerminal (statuses k).status = true
    · simp [waitForJobGo, ht] at h
    · simp [waitForJobGo, ht] at h
      cases j with
      | zero => simpa using ht
      | succ j =>
        have hres := ih (k + 1) h j (by omega)
        have heq : k + 1 + j = k + (j + 1) := by omega
        rw [heq] at hres
        exact hres

lemma pollGo_download_of_not_completed (responses : Nat → ScriptStatus)
    (interval : Nat) :
    ∀ fuel a slept,
      (pollGo responses interval fuel a slept).tag ≠ .completedT →
      (pollGo responses interval fuel a slept).download = false := by
  intro fuel
  induction fuel with
  | zero => intro a slept _; rfl
  | succ n ih =>
    intro a slept h
    by_cases h1 : (responses (a + 1)).status == "completed"
    · simp [pollGo, h1] at h
    · by_cases h2 : (responses (a + 1)).status == "failed"
      · simp [pollGo, h1, h2]
      · by_cases h3 : (responses (a + 1)).status == "cancelled"
        · simp [pollGo, h1, h2, h3]
        · simp only [pollGo, h1, h2, h3] at h ⊢
          simp only [Bool.false_eq_true, if_false] at h ⊢
          exact ih (a + 1) (slept + interval) h

lemma pollGo_attempts_le (responses : Nat → ScriptStatus) (interval : Nat) :
    ∀ fuel a slept,
      (pollGo responses interval fuel a slept).attempts ≤ a + fuel := by
  intro fuel
  induction fuel with
  | zero => intro a slept; simp [pollGo]
  | succ n ih =>
    intro a slept
    by_cases h1 : (responses (a + 1)).status == "completed"
    · simp [pollGo, h1]
    · by_cases h2 : (responses (a + 1)).status == "failed"
      · simp [pollGo, h1, h2]
      · by_cases h3 : (responses (a + 1)).status == "cancelled"
        · simp [pollGo, h1, h2, h3]
        · simp only [pollGo, h1, h2, h3]
          simp only [Bool.false_eq_true, if_false]
          have := ih (a + 1) (slept + interval)
          omega

lemma pollGo_timeout (responses : Nat → ScriptStatus) (interval : Nat) :
    ∀ fuel a slept,
      (∀ j, a < j → j ≤ a + fuel → terminalScript (responses j) = false) →
      pollGo responses interval fuel a slept =
        ⟨a + fuel, slept + fuel * interval, .timeoutT, false, none⟩ := by
  intro fuel
  induction fuel with
  | zero => intro a slept _; simp [pollGo]
  | succ n ih =>
    intro a slept h
    have hfst := h (a + 1) (by omega) (by omega)
    simp only [terminalScript, Bool.or_eq_false_iff] at hfst
    obtain ⟨⟨h1, h2⟩, h3⟩ := hfst
    simp only [pollGo, h1, h2, h3]
    simp only [Bool.false_eq_true, if_false]
    rw [ih (a + 1) (slept + interval) (fun j hj1 hj2 => h j (by omega) (by omega))]
    have e1 : a + 1 + n = a + (n + 1) := by omega
    have e2 : slept + interval + n * interval = slept + (n + 1) * interval := by
      ring
    rw [e1, e2]

lemma pollGo_first_terminal (responses : Nat → ScriptStatus) (interval : Nat) :
    ∀ fuel a slept k, a < k → k ≤ a + fuel →
      terminalScript (responses k) = true →
      (∀ j, a < j → j < k → terminalScript (responses j) = false) →
      (pollGo responses interval fuel a slept).attempts = k ∧
      (pollGo responses interval fuel a slept).slept =
        slept + (k - 1 - a) * interval := by
  intro fuel
  induction fuel with
  | zero => intro a slept k hk1 hk2 _ _; omega
  | succ n ih =>
    intro a slept k hk1 hk2 hterm hbefore
    by_cases hk : k = a + 1
    · subst hk
      have h0 : a + 1 - 1 - a = 0 := by omega
      by_cases h1 : (responses (a + 1)).status == "completed"
      · simp [pollGo, h1, h0]
      · by_cases h2 : (responses (a + 1)).status == "failed"
        · simp [pollGo, h1, h2, h0]
        · by_cases h3 : (responses (a + 1)).status == "cancelled"
          · simp [pollGo, h1, h2, h3, h0]
          · exfalso
            simp [terminalScript, h1, h2, h3] at hterm
    · have hne := hbefore (a + 1) (by omega) (by omega)
      simp only [terminalScript, Bool.or_eq_false_iff] at hne
      obtain ⟨⟨h1, h2⟩, h3⟩ := hne
      simp only [pollGo, h1, h2, h3]
      simp only [Bool.false_eq_true, if_false]
      have := ih (a + 1) (slept + interval) k (by omega) (by omega) hterm
        (fun j hj1 hj2 => hbefore j (by omega) hj2)
      obtain ⟨ha, hs⟩ := this
      refine ⟨ha, ?_⟩
      rw [hs]
      have hk1' : a + 1 < k := by omega
      have : k - 1 - a = (k - 1 - (a + 1)) + 1 := by omega
      rw [this]
      ring

lemma flatMap_replicate_length {α β : Type} (n : Nat) (a : α)
    (f : α → List β) :
    ((List.replicate n a).flatMap f).length = n * (f a).length := by
  simp [List.length_flatMap, List.map_replicate]

/-! ### Claims -/

/-- C1 is false of the code: delivering the same terminal `tts_delivered`
event twice makes the webhook server invoke `downloadAudio` twice, not
exactly once — `handleDelivered` has no `terminalHandled` guard and no
per-job state, so nothing deduplicates repeated terminal deliveries. -/
theorem C1_counterexample :
    (runServer [(some deliveredEvent, 0), (some deliveredEvent, 1)]).downloads
      = [⟨some "job-1", some "https://x/a.mp3"⟩,
         ⟨some "job-1", some "https://x/a.mp3"⟩] ∧
    (runServer [(some deliveredEvent, 0),
      (some deliveredEvent, 1)]).downloads.length ≠ 1 := by
  refine ⟨rfl, ?_⟩
  show ¬ ([⟨some "job-1", some "https://x/a.mp3"⟩,
    (⟨some "job-1", some "https://x/a.mp3"⟩ : Download)].length = 1)
  simp

/-- C1 (amended): delivering the same terminal `tts_delivered` event with a
truthy `audio_file_url` N times yields exactly N invocations of
`downloadAudio` — one per delivery — because the webhook server processes
each delivery independently with no deduplication. -/
theorem C1_amended (n : Nat) (ev : WebhookData) (t : Nat)
    (hev : jsOr ev.event "unknown" = "tts_delivered")
    (hurl : truthy ev.audio_file_url = true) :
    (runServer (List.replicate n ((some ev, t) : Request))).downloads.length
      = n := by
  have hd : (dispatchEvent ev).downloads = [⟨ev.job_id, ev.audio_file_url⟩] := by
    rw [dispatchEvent_delivered ev hev]
    simp [hurl]
  rw [runServer_eq]
  have : reqDownloads ((some ev, t) : Request) = [⟨ev.job_id, ev.audio_file_url⟩] := by
    simp [reqDownloads, hd]
  simp [flatMap_replicate_length, this]

/-- Witness for the amended C1 at N = 2: two identical deliveries produce
two downloads. -/
theorem C1_amended_witness :
    (runServer (List.replicate 2 ((some deliveredEvent, 0) : Request))).downloads.length
      = 2 :=
  C1_amended 2 deliveredEvent 0 rfl rfl

/-- C2 is false of the code: the webhook receiver records no per-job
`currentState` and discards nothing.  After a `tts_failed` event for
`job-1`, a subsequent `tts_delivered` (Completed) event for the same job id
is fully processed: it is appended to the event log and its handler runs a
download; the last stored status for the job is `completed`, not the
first-recorded terminal `failed`. -/
theorem C2_counterexample :
    (runServer [(some failedEvent, 0), (some deliveredEvent, 1)]).downloads
      = [⟨some "job-1", some "https://x/a.mp3"⟩] ∧
    (runServer [(some failedEvent, 0), (some deliveredEvent, 1)]).events.length
      = 2 ∧
    (getEventsForJob
        (runServer [(some failedEvent, 0), (some deliveredEvent, 1)]).events
        "job-1").getLast?.map (fun e => e.data.status)
      = some (some "completed") :=
  ⟨rfl, rfl, rfl⟩

/-- C2 (amended): the webhook receiver keeps no per-job state and performs no
terminal-stickiness check; every syntactically valid event is appended to the
log and dispatched to its handler regardless of what was received before.  In
particular a `tts_delivered` event arriving after a `tts_failed` event for
the same job id is still processed: both events are stored, and the later
delivered event triggers its download when its audio url is truthy. -/
theorem C2_amended (evF evD : WebhookData) (t₁ t₂ : Nat)
    (hF : jsOr evF.event "unknown" = "tts_failed")
    (hD : jsOr evD.event "unknown" = "tts_delivered")
    (hurl : truthy evD.audio_file_url = true) :
    (runServer [(some evF, t₁), (some evD, t₂)]).events
      = [⟨evF, t₁⟩, ⟨evD, t₂⟩] ∧
    (runServer [(some evF, t₁), (some evD, t₂)]).downloads
      = [⟨evD.job_id, evD.audio_file_url⟩] := by
  rw [runServer_eq]
  constructor
  · simp [reqStored]
  · simp [reqDownloads, dispatchEvent_failed evF hF,
      dispatchEvent_delivered evD hD, hurl]

/-- Witness for the amended C2 on the concrete failed-then-delivered pair. -/
theorem C2_amended_witness :
    (runServer [(some failedEvent, 0), (some deliveredEvent, 1)]).events
      = [⟨failedEvent, 0⟩, ⟨deliveredEvent, 1⟩] ∧
    (runServer [(some failedEvent, 0), (some deliveredEvent, 1)]).downloads
      = [⟨some "job-1", some "https://x/a.mp3"⟩] :=
  C2_amended failedEvent deliveredEvent 0 1 rfl rfl rfl

/-- C6 is false of the code: a syntactically valid body missing the required
fields `event`, `job_id` and `status` (here: a body with every field absent)
is not rejected with a client error — it is answered with HTTP 200, appended
to the event log, and dispatched (to the Unknown-event branch), so it does
reach downstream handling. -/
theorem C6_counterexample :
    (postWebhook [] (some emptyWebhookData) 0).httpStatus = 200 ∧
    (postWebhook [] (some emptyWebhookData) 0).events.length = 1 ∧
    (postWebhook [] (some emptyWebhookData) 0).dispatched
      = some ⟨.unknownEvent, [], none⟩ :=
  ⟨rfl, rfl, rfl⟩

/-- C6 (amended): only an absent (falsy) body is rejected, with HTTP 400, and
a rejected request neither appends to the event log nor reaches dispatch; any
present body — even one missing `event`, `job_id` or `status`, whose fields
default to `unknown` — is appended, dispatched, and acknowledged with
HTTP 200 independent of which handler branch runs. -/
theorem C6_amended :
    (∀ (events : List StoredEvent) (now : Nat),
      postWebhook events none now = ⟨400, events, none⟩) ∧
    (∀ (events : List StoredEvent) (data : WebhookData) (now : Nat),
      postWebhook events (some data) now
        = ⟨200, events ++ [⟨data, now⟩], some (dispatchEvent data)⟩) :=
  ⟨fun _ _ => rfl, fun _ _ _ => rfl⟩

/-- C5: a syntactically valid webhook payload whose `event` value is not one
of the six recognized types is acknowledged with HTTP 200 and dispatched to
the `default` branch, which only logs a warning: no handler runs, no download
is triggered, no error response is produced. -/
theorem C5_unknown_event_acknowledged (data : WebhookData)
    (events : List StoredEvent) (now : Nat)
    (h : knownEventTypes.contains (jsOr data.event "unknown") = false) :
    (postWebhook events (some data) now).httpStatus = 200 ∧
    (postWebhook events (some data) now).dispatched
      = some ⟨.unknownEvent, [], none⟩ := by
  simp [knownEventTypes, List.contains] at h
  obtain ⟨h1, h2, h3, h4, h5, h6⟩ := h
  exact ⟨rfl, by simp [postWebhook, dispatchEvent, h1, h2, h3, h4, h5, h6]⟩

/-- Witness for C5 on a concrete unrecognized event type. -/
theorem C5_witness :
    knownEventTypes.contains (jsOr unrecognizedEvent.event "unknown") = false ∧
    ((postWebhook [] (some unrecognizedEvent) 0).httpStatus = 200 ∧
     (postWebhook [] (some unrecognizedEvent) 0).dispatched
       = some ⟨.unknownEvent, [], none⟩) :=
  ⟨rfl, C5_unknown_event_acknowledged unrecognizedEvent [] 0 rfl⟩

/-- C7: on failure terminal states no artifact fetch occurs and the captured
error is surfaced.  In the webhook server, a `tts_failed` event triggers no
`downloadAudio` call and `handleFailed` logs
`data.error_message || 'Unknown error'`.  In the README polling script, the
`failed` and `cancelled` branches never run the download, and a first-attempt
failure ends the loop immediately, echoing the error message when present. -/
theorem C7_no_fetch_on_failure :
    (∀ data : WebhookData, jsOr data.event "unknown" = "tts_failed" →
      (dispatchEvent data).downloads = [] ∧
      (dispatchEvent data).loggedError
        = some (jsOr data.error_message "Unknown error")) ∧
    (∀ (responses : Nat → ScriptStatus) (interval maxAttempts : Nat),
      (pollLoop responses interval maxAttempts).tag = .failedT ∨
        (pollLoop responses interval maxAttempts).tag = .cancelledT →
      (pollLoop responses interval maxAttempts).download = false) ∧
    (∀ responses : Nat → ScriptStatus, (responses 1).status = "failed" →
      pollScript responses
        = ⟨1, 0, .failedT, false,
           scriptErrorShown (responses 1).error_message⟩) := by
  refine ⟨?_, ?_, ?_⟩
  · intro data h
    rw [dispatchEvent_failed data h]
    exact ⟨rfl, rfl⟩
  · intro responses interval maxAttempts h
    have hne : (pollLoop responses interval maxAttempts).tag ≠ .completedT := by
      rcases h with h | h <;> simp [h]
    exact pollGo_download_of_not_completed responses interval maxAttempts 0 0 hne
  · intro responses h
    show pollGo responses 2 (29 + 1) 0 0 = _
    simp [pollGo, h]

/-- Witness for C7: a failed webhook event and a first-poll failure. -/
theorem C7_witness :
    (dispatchEvent failedEvent).downloads = [] ∧
    pollScript (fun _ => ⟨"failed", "", "boom"⟩)
      = ⟨1, 0, .failedT, false, some "boom"⟩ := by
  refine ⟨(C7_no_fetch_on_failure.1 failedEvent rfl).1, ?_⟩
  have h := C7_no_fetch_on_failure.2.2 (fun _ => ⟨"failed", "", "boom"⟩) rfl
  simpa [scriptErrorShown] using h

/-- C8 is false of the code: neither `downloadAudio` makes more than one HTTP
attempt.  On a transfer failure the webhook server's version makes exactly
one request and merely logs the error — no retry, no exponential backoff —
so the claimed retry (a second attempt after a failure) never happens. -/
theorem C8_counterexample :
    (downloadAudio (some "job-1") "https://x/a.mp3" failHttp).2 = 1 ∧
    ¬ 2 ≤ (downloadAudio (some "job-1") "https://x/a.mp3" failHttp).2 ∧
    (downloadAudio (some "job-1") "https://x/a.mp3" failHttp).1
      = .failedLogged "Network Error" := by
  refine ⟨rfl, ?_, rfl⟩
  show ¬ (2 ≤ 1)
  decide

/-- C8 (amended): both download helpers make exactly one HTTP attempt per
invocation, whatever the outcome; a failed transfer is surfaced as the
caught, logged error message (webhook server) or as the rejected promise's
error (client) — with no retry, no backoff, and no separate
ArtifactFetchFailed condition. -/
theorem C8_amended :
    (∀ (jobId : Option String) (audioUrl : String)
        (http : String → Except String String),
      (downloadAudio jobId audioUrl http).2 = 1) ∧
    (∀ (jobId : Option String) (audioUrl : String)
        (http : String → Except String String) (m : String),
      http audioUrl = .error m →
      (downloadAudio jobId audioUrl http).1 = .failedLogged m) ∧
    (∀ (audioUrl : String) (http : String → Except String String),
      (downloadAudioClient audioUrl http).2 = 1) ∧
    (∀ (audioUrl : String) (http : String → Except String String) (m : String),
      http audioUrl = .error m →
      (downloadAudioClient audioUrl http).1 = .error m) := by
  refine ⟨?_, ?_, ?_, ?_⟩
  · intro jobId audioUrl http
    cases hx : http audioUrl <;> simp [downloadAudio, hx]
  · intro jobId audioUrl http m h
    simp [downloadAudio, h]
  · intro audioUrl http
    cases hx : http audioUrl <;> simp [downloadAudioClient, hx]
  · intro audioUrl http m h
    simp [downloadAudioClient, h]

/-- Witness for the amended C8 on a concrete failing transfer. -/
theorem C8_amended_witness :
    (downloadAudio (some "job-9") "https://y/b.mp3" (fun _ => .error "boom")).2
      = 1 ∧
    (downloadAudio (some "job-9") "https://y/b.mp3" (fun _ => .error "boom")).1
      = .failedLogged "boom" :=
  ⟨C8_amended.1 _ _ _, C8_amended.2.1 _ _ _ "boom" rfl⟩

/-- C10: `handleDelivered` invokes `downloadAudio` if and only if the event
payload's `audio_file_url` is truthy (present and non-empty); when it is,
exactly one download with exactly that job id and url is invoked, and when it
is not, none at all. -/
theorem C10_download_iff_truthy_url (data : WebhookData)
    (h : jsOr data.event "unknown" = "tts_delivered") :
    ((dispatchEvent data).downloads ≠ [] ↔ truthy data.audio_file_url = true) ∧
    (truthy data.audio_file_url = true →
      (dispatchEvent data).downloads = [⟨data.job_id, data.audio_file_url⟩]) ∧
    (truthy data.audio_file_url = false →
      (dispatchEvent data).downloads = []) := by
  rw [dispatchEvent_delivered data h]
  by_cases ht : truthy data.audio_file_url = true
  · simp [ht]
  · simp only [Bool.not_eq_true] at ht
    simp [ht]

/-- Witness for C10 on the concrete delivered event with a truthy url. -/
theorem C10_witness :
    truthy deliveredEvent.audio_file_url = true ∧
    (dispatchEvent deliveredEvent).downloads
      = [⟨some "job-1", some "https://x/a.mp3"⟩] :=
  ⟨rfl, (C10_download_iff_truthy_url deliveredEvent rfl).2.1 rfl⟩

/-- C3: for any sequence of status responses and any timeout, `waitForJob`
either resolves with a snapshot whose status is terminal — `completed`,
`failed` and `cancelled` all return normally through the same branch, only
the status string differing — or returns nothing (the JS `throw`, the
WaitTimeout) and in that case no poll attempt inside the timeout window ever
observed a terminal status; it never resolves with a non-terminal status. -/
theorem C3_waitForJob_terminal_or_timeout (statuses : Nat → JobStatus)
    (timeout pollInterval : Nat) (hpi : 0 < pollInterval) :
    (∀ s, waitForJob statuses timeout pollInterval = some s →
      isTerminal s.status = true) ∧
    (waitForJob statuses timeout pollInterval = none →
      ∀ k, k * (pollInterval * 1000) < timeout * 1000 →
        isTerminal (statuses k).status = false) := by
  constructor
  · intro s h
    exact waitForJobGo_some statuses _ 0 s h
  · intro h k hk
    have hi : 0 < pollInterval * 1000 := by positivity
    have hklt : k < numAttempts (timeout * 1000) (pollInterval * 1000) := by
      unfold numAttempts
      rw [if_neg (by omega)]
      have hm : (k + 1) * (pollInterval * 1000)
          = k * (pollInterval * 1000) + pollInterval * 1000 := by ring
      have h2 : (k + 1) * (pollInterval * 1000)
          ≤ timeout * 1000 + pollInterval * 1000 - 1 := by omega
      exact (Nat.le_div_iff_mul_le hi).mpr h2
    have := waitForJobGo_none statuses _ 0 h k hklt
    simpa using this

/-- Witness for C3 with the JS defaults (timeout 300, interval 2) and a job
that reports `completed` at once. -/
theorem C3_witness :
    0 < 2 ∧ isTerminal (JobStatus.mk (some "completed")).status = true :=
  ⟨by decide,
   (C3_waitForJob_terminal_or_timeout (fun _ => ⟨some "completed"⟩) 300 2
     (by decide)).1 ⟨some "completed"⟩ rfl⟩

/-- A response sequence that is non-terminal on attempt 1 and `completed` on
attempt 2, used to witness the polling-loop theorem. -/
def sampleResponses : Nat → ScriptStatus :=
  fun n =>
    if n = 2 then ⟨"completed", "https://x/a.mp3", ""⟩
    else ⟨"processing", "", ""⟩

/-- C4: the README script's polling loop runs the shipped defaults
`MAX_ATTEMPTS=30`, `POLL_INTERVAL=2`; it performs at most `maxAttempts`
status queries; it stops at the first terminal response, having slept the
constant interval exactly once per preceding non-terminal attempt (no
exponential growth); and when all `maxAttempts` responses are non-terminal it
stops, having slept `maxAttempts * interval`, and reports the timeout
message. -/
theorem C4_poll_budget (responses : Nat → ScriptStatus)
    (interval maxAttempts : Nat) :
    pollScript responses = pollLoop responses 2 30 ∧
    (pollLoop responses interval maxAttempts).attempts ≤ maxAttempts ∧
    (∀ k, 0 < k → k ≤ maxAttempts → terminalScript (responses k) = true →
      (∀ j, 0 < j → j < k → terminalScript (responses j) = false) →
      (pollLoop responses interval maxAttempts).attempts = k ∧
      (pollLoop responses interval maxAttempts).slept = (k - 1) * interval) ∧
    ((∀ j, 0 < j → j ≤ maxAttempts → terminalScript (responses j) = false) →
      pollLoop responses interval maxAttempts
        = ⟨maxAttempts, maxAttempts * interval, .timeoutT, false, none⟩ ∧
      reportsTimeout maxAttempts (pollLoop responses interval maxAttempts)
        = true) := by
  refine ⟨rfl, ?_, ?_, ?_⟩
  · have := pollGo_attempts_le responses interval maxAttempts 0 0
    simpa [pollLoop] using this
  · intro k hk1 hk2 hterm hbefore
    have := pollGo_first_terminal responses interval maxAttempts 0 0 k hk1
      (by omega) hterm (fun j hj1 hj2 => hbefore j hj1 hj2)
    simpa [pollLoop] using this
  · intro h
    have ht := pollGo_timeout responses interval maxAttempts 0 0
      (fun j hj1 hj2 => h j hj1 (by omega))
    have ht' : pollLoop responses interval maxAttempts
        = ⟨maxAttempts, maxAttempts * interval, .timeoutT, false, none⟩ := by
      simpa [pollLoop] using ht
    exact ⟨ht', by rw [ht']; rfl⟩

/-- Witness for C4: with the defaults, a job turning `completed` on attempt 2
stops the loop after exactly 2 queries and one 2-second sleep. -/
theorem C4_witness :
    (pollLoop sampleResponses 2 30).attempts = 2 ∧
    (pollLoop sampleResponses 2 30).slept = (2 - 1) * 2 :=
  (C4_poll_budget sampleResponses 2 30).2.2.1 2 (by decide) (by decide) rfl
    (fun j hj1 hj2 => by
      have hj : j = 1 := by omega
      subst hj
      rfl)

/-- C9: every accepted `POST /webhook` appends exactly one entry (the body
plus `received_at`) to the in-memory log, leaving existing entries untouched,
and a rejected post appends nothing; hence `events_received` reported by
`GET /health` equals the number of accepted posts; and `GET /events/:jobId`
returns exactly the stored entries whose `job_id` equals the path parameter,
as a sublist of the log (arrival order preserved). -/
theorem C9_event_log (reqs : List Request) (jobId : String) (e : StoredEvent) :
    (∀ (events : List StoredEvent) (data : WebhookData) (now : Nat),
      (postWebhook events (some data) now).events = events ++ [⟨data, now⟩]) ∧
    (∀ (events : List StoredEvent) (now : Nat),
      (postWebhook events none now).events = events) ∧
    healthEventsReceived (runServer reqs)
      = (reqs.filter (fun r => r.1.isSome)).length ∧
    (e ∈ getEventsForJob (runServer reqs).events jobId ↔
      e ∈ (runServer reqs).events ∧ e.data.job_id = some jobId) ∧
    (getEventsForJob (runServer reqs).events jobId).Sublist
      (runServer reqs).events := by
  refine ⟨fun _ _ _ => rfl, fun _ _ => rfl, ?_, ?_, ?_⟩
  · rw [runServer_eq]
    simpa [healthEventsReceived] using length_flatMap_reqStored reqs
  · simp [getEventsForJob, List.mem_filter]
  · exact List.filter_sublist _

end CreoleCentric
